import Mathlib

/-!
Shallow embedding of `src/packages/1155-contracts/package/premint-api.ts`
(zora-protocol premint API client), together with theorems checking the
natural-language specification against this code.

Conventions of the embedding:
* TS `bigint` / `number` values are `Nat` (all quantities in this module are
  unsigned: chain ids, uids, supplies, prices, timestamps, reward amounts).
* TS strings are Lean `String`; `String.toLowerCase` and numeric
  `toString()` / `BigInt(string)` are modelled character-faithfully below.
* `fetch` and the wallet/chain RPC capabilities are external collaborators;
  they are modelled as oracle functions packaged in an `Env`, and the
  side effects a flow performs are recorded in an explicit `Effect` trace.
* Fallible code returns `Except String` mirroring `throw new Error(...)`.
-/

/-! ### JS-style helpers: decimal strings and toLowerCase -/

/-- Fuel-driven worker for `natToDecDigits`; the fuel only forces structural
termination and any fuel above the digit count gives the same answer. -/
def natToDecDigitsAux : Nat → Nat → List Nat
  | 0, _ => []
  | fuel + 1, n =>
      if n < 10 then [n]
      else natToDecDigitsAux fuel (n / 10) ++ [n % 10]

/-- Big-endian decimal digit list of `n` (the digits of JS `n.toString()` /
`String(n)` for a non-negative integer or bigint). -/
def natToDecDigits (n : Nat) : List Nat :=
  natToDecDigitsAux (n + 1) n

/-- Interpret a big-endian decimal digit list, as JS `BigInt(string)` /
`Number(string)` does for a string of decimal digits. -/
def decDigitsToNat (ds : List Nat) : Nat :=
  ds.foldl (fun a d => 10 * a + d) 0

/-- The character for decimal digit `d` (`0 ↦ '0'`, ..., `9 ↦ '9'`). -/
def digitChar (d : Nat) : Char :=
  Char.ofNat (d + 48)

/-- The decimal digit denoted by character `c` (`'0' ↦ 0`, ...). -/
def charDigit (c : Char) : Nat :=
  c.toNat - 48

/-- JS `n.toString()` for a non-negative bigint / number `n`. -/
def natToDecString (n : Nat) : String :=
  ⟨(natToDecDigits n).map digitChar⟩

/-- JS `BigInt(s)` for a string `s` of decimal digits. -/
def decStringToNat (s : String) : Nat :=
  decDigitsToNat (s.data.map charDigit)

/-- JS `String.prototype.toLowerCase` restricted to ASCII, which is the
alphabet of the hex address strings this module lower-cases. -/
def jsToLowerCase (s : String) : String :=
  ⟨s.data.map Char.toLower⟩

/-! ### Network configuration (premint-api.ts lines 18-51) -/

/-- `NetworkConfig` (premint-api.ts lines 18-23). -/
structure NetworkConfig where
  chainId : Nat
  zoraPathChainName : String
  zoraBackendChainName : String
  isTestnet : Bool
  deriving DecidableEq, Repr

/-- `BackendChainNames.ZORA_MAINNET` (premint-api.ts line 26). -/
def BackendChainNames.ZORA_MAINNET : String := "ZORA-MAINNET"

/-- `BackendChainNames.ZORA_TESTNET` (premint-api.ts line 27). -/
def BackendChainNames.ZORA_TESTNET : String := "ZORA-TESTNET"

/-- `ZORA_API_BASE` (premint-api.ts line 30). -/
def ZORA_API_BASE : String := "https://api.zora.co/premint/"

/-- `ZORA_PREMINT_API_BASE` (premint-api.ts line 131). -/
def ZORA_PREMINT_API_BASE : String := "https://api.zora.co/premint/"

/-- `zora.id` from `viem/chains` (Zora mainnet chain id). -/
def zoraChainId : Nat := 7777777

/-- `zoraTestnet.id` from `viem/chains` (Zora Goerli testnet chain id). -/
def zoraTestnetChainId : Nat := 999

/-- `foundry.id` from `viem/chains` (local foundry test chain id). -/
def foundryChainId : Nat := 31337

/-- `networkConfigByChain` (premint-api.ts lines 32-51): a record keyed by
chain id.  Note the entry under key `zoraTestnet.id` stores
`chainId: zora.id` exactly as the source does. -/
def networkConfigByChain (chainId : Nat) : Option NetworkConfig :=
  if chainId = zoraChainId then
    some { chainId := zoraChainId
           zoraPathChainName := "zora"
           zoraBackendChainName := BackendChainNames.ZORA_MAINNET
           isTestnet := false }
  else if chainId = zoraTestnetChainId then
    some { chainId := zoraChainId
           zoraPathChainName := "zora"
           zoraBackendChainName := BackendChainNames.ZORA_TESTNET
           isTestnet := true }
  else if chainId = foundryChainId then
    some { chainId := foundryChainId
           zoraPathChainName := "zora"
           zoraBackendChainName := BackendChainNames.ZORA_TESTNET
           isTestnet := true }
  else
    none

/-! ### Data model (premint-api.ts lines 53-102) -/

/-- `PremintResponse["collection"]` (premint-api.ts lines 78-82). -/
structure CollectionT where
  contractAdmin : String
  contractURI : String
  contractName : String
  deriving DecidableEq, Repr

/-- The decoded (bigint-valued) token configuration: the shape produced by
`convertPremint` and consumed by `encodePremintForAPI` (the `tokenConfig`
of the `PremintConfig` type from `./preminter`). -/
structure TokenConfig where
  tokenURI : String
  maxSupply : Nat
  maxTokensPerAddress : Nat
  pricePerToken : Nat
  mintStart : Nat
  mintDuration : Nat
  royaltyMintSchedule : Nat
  royaltyBPS : Nat
  royaltyRecipient : String
  fixedPriceMinter : String
  deriving DecidableEq, Repr

/-- The decoded premint configuration (`PremintConfig` from `./preminter`,
as exercised by this file: `tokenConfig`, `uid`, `version`, `deleted`). -/
structure PremintConfig where
  tokenConfig : TokenConfig
  uid : Nat
  version : Nat
  deleted : Bool
  deriving DecidableEq, Repr

/-- The wire-format token configuration of `PremintResponse` (premint-api.ts
lines 84-95): the five bigint fields travel as decimal strings, the two
plain-number fields travel as numbers. -/
structure TokenConfigWire where
  tokenURI : String
  maxSupply : String
  maxTokensPerAddress : String
  pricePerToken : String
  mintStart : String
  mintDuration : String
  royaltyMintSchedule : Nat
  royaltyBPS : Nat
  royaltyRecipient : String
  fixedPriceMinter : String
  deriving DecidableEq, Repr

/-- The wire-format premint of `PremintResponse` (premint-api.ts lines
83-99). -/
structure PremintWire where
  tokenConfig : TokenConfigWire
  uid : Nat
  version : Nat
  deleted : Bool
  deriving DecidableEq, Repr

/-- `PremintResponse` (premint-api.ts lines 77-102). -/
structure PremintResponse where
  collection : CollectionT
  premint : PremintWire
  chain_name : String
  signature : String
  deriving DecidableEq, Repr

/-- `convertPremint` (premint-api.ts lines 104-114): spread the wire premint
and replace the five string-encoded bigint fields by `BigInt(...)` of them. -/
def convertPremint (premint : PremintWire) : PremintConfig :=
  { tokenConfig :=
      { tokenURI := premint.tokenConfig.tokenURI
        maxSupply := decStringToNat premint.tokenConfig.maxSupply
        pricePerToken := decStringToNat premint.tokenConfig.pricePerToken
        mintStart := decStringToNat premint.tokenConfig.mintStart
        mintDuration := decStringToNat premint.tokenConfig.mintDuration
        maxTokensPerAddress := decStringToNat premint.tokenConfig.maxTokensPerAddress
        royaltyMintSchedule := premint.tokenConfig.royaltyMintSchedule
        royaltyBPS := premint.tokenConfig.royaltyBPS
        royaltyRecipient := premint.tokenConfig.royaltyRecipient
        fixedPriceMinter := premint.tokenConfig.fixedPriceMinter }
    uid := premint.uid
    version := premint.version
    deleted := premint.deleted }

/-- `encodePremintForAPI` (premint-api.ts lines 116-129): spread the premint
and replace the five bigint fields by `.toString()` of them. -/
def encodePremintForAPI (premint : PremintConfig) : PremintWire :=
  { tokenConfig :=
      { tokenURI := premint.tokenConfig.tokenURI
        maxSupply := natToDecString premint.tokenConfig.maxSupply
        pricePerToken := natToDecString premint.tokenConfig.pricePerToken
        mintStart := natToDecString premint.tokenConfig.mintStart
        mintDuration := natToDecString premint.tokenConfig.mintDuration
        maxTokensPerAddress := natToDecString premint.tokenConfig.maxTokensPerAddress
        royaltyMintSchedule := premint.tokenConfig.royaltyMintSchedule
        royaltyBPS := premint.tokenConfig.royaltyBPS
        royaltyRecipient := premint.tokenConfig.royaltyRecipient
        fixedPriceMinter := premint.tokenConfig.fixedPriceMinter }
    uid := premint.uid
    version := premint.version
    deleted := premint.deleted }

/-! ### JSON values and the HTTP layer (premint-api.ts lines 155-173) -/

/-- A JSON value, the shape of registry request/response bodies
(`response.json()` / `JSON.stringify`). -/
inductive Json where
  | null : Json
  | str : String → Json
  | num : Nat → Json
  | bool : Bool → Json
  | obj : List (String × Json) → Json
  deriving Repr

/-- An HTTP-style response from the registry service: a status code and a
parsed JSON body. -/
structure HttpResponse where
  status : Nat
  body : Json
  deriving Repr

/-- `PreminterAPI.get` (premint-api.ts lines 155-158): performs a GET fetch
and returns `response.json()`.  The response for the requested path is the
argument; note the source inspects no status here. -/
def PreminterAPI.get (response : HttpResponse) : Except String Json :=
  Except.ok response.body

/-- `PreminterAPI.post` (premint-api.ts lines 160-173): performs a POST
fetch (body `JSON.stringify(data)`) and throws `Bad response: {status}` on
any status other than 200, else returns `response.json()`. -/
def PreminterAPI.post (response : HttpResponse) : Except String Json :=
  if response.status ≠ 200 then
    Except.error ("Bad response: " ++ natToDecString response.status)
  else
    Except.ok response.body

/-! ### Default mint arguments and the token-config merge
(premint-api.ts lines 53-75 and 208-213) -/

/-- `MintArgumentsSettings` (premint-api.ts lines 53-64): `tokenURI` is
required, every other field is an optional caller override. -/
structure MintArgumentsSettings where
  tokenURI : String
  maxSupply : Option Nat := none
  maxTokensPerAddress : Option Nat := none
  pricePerToken : Option Nat := none
  mintStart : Option Nat := none
  mintDuration : Option Nat := none
  royaltyMintSchedule : Option Nat := none
  royaltyBPS : Option Nat := none
  royaltyRecipient : Option String := none
  fixedPriceMinter : Option String := none
  deriving DecidableEq, Repr

/-- `OPEN_EDITION_MINT_SIZE` (premint-api.ts line 66). -/
def OPEN_EDITION_MINT_SIZE : String := "18446744073709551615"

/-- The shape of `DefaultMintArguments` (premint-api.ts lines 67-75). -/
structure DefaultMintArgumentsT where
  maxSupply : Nat
  maxTokensPerAddress : Nat
  pricePerToken : Nat
  mintDuration : Nat
  mintStart : Nat
  royaltyMintSchedule : Nat
  royaltyBPS : Nat
  deriving DecidableEq, Repr

/-- `DefaultMintArguments` (premint-api.ts lines 67-75). -/
def DefaultMintArguments : DefaultMintArgumentsT :=
  { maxSupply := decStringToNat OPEN_EDITION_MINT_SIZE
    maxTokensPerAddress := 0
    pricePerToken := 0
    mintDuration := 60 * 60 * 24 * 7
    mintStart := 0
    royaltyMintSchedule := 0
    royaltyBPS := 1000 }

/-- The token-config merge of `createPremint` (premint-api.ts lines
208-213): `{ ...DefaultMintArguments, fixedPriceMinter:
this.getFixedPriceMinterAddress(), royaltyRecipient: account, ...mint }` —
defaults first, then the context-derived fields, then caller overrides. -/
def mergeTokenConfig (fixedPriceMinter : String) (account : String)
    (mint : MintArgumentsSettings) : TokenConfig :=
  { tokenURI := mint.tokenURI
    maxSupply := mint.maxSupply.getD DefaultMintArguments.maxSupply
    maxTokensPerAddress :=
      mint.maxTokensPerAddress.getD DefaultMintArguments.maxTokensPerAddress
    pricePerToken := mint.pricePerToken.getD DefaultMintArguments.pricePerToken
    mintStart := mint.mintStart.getD DefaultMintArguments.mintStart
    mintDuration := mint.mintDuration.getD DefaultMintArguments.mintDuration
    royaltyMintSchedule :=
      mint.royaltyMintSchedule.getD DefaultMintArguments.royaltyMintSchedule
    royaltyBPS := mint.royaltyBPS.getD DefaultMintArguments.royaltyBPS
    royaltyRecipient := mint.royaltyRecipient.getD account
    fixedPriceMinter := mint.fixedPriceMinter.getD fixedPriceMinter }

/-! ### Deployment address tables (imported from `./wagmiGenerated`) -/

/-- Modelled from the spec: the generated per-chain deployment address
table `zoraCreator1155PremintExecutorImplAddress` lives in
`./wagmiGenerated`, which is not part of src/.  The spec describes the
chain interface as "read/write calls against a deployed premint executor
contract, address resolved per chain id", so the table maps each chain id
to that chain's own (distinct) executor deployment address. -/
def zoraCreator1155PremintExecutorImplAddress (chainId : Nat) : String :=
  "0xPremintExecutor-chain-" ++ natToDecString chainId

/-- Modelled from the spec: the generated per-chain deployment address
table `zoraCreatorFixedPriceSaleStrategyAddress` lives in
`./wagmiGenerated`, which is not part of src/.  As with the executor, each
chain id resolves to that chain's own fixed-price sale strategy address. -/
def zoraCreatorFixedPriceSaleStrategyAddress (chainId : Nat) : String :=
  "0xFixedPriceMinter-chain-" ++ natToDecString chainId

/-! ### The `PreminterAPI` instance (premint-api.ts lines 133-153) -/

/-- The per-instance immutable state of `PreminterAPI` (premint-api.ts
lines 133-136): resolved network, the chain it was constructed for
(of which only the id is relevant here), and the reward constant. -/
structure PreminterAPI where
  network : NetworkConfig
  chainId : Nat
  rewardPerToken : Nat
  deriving DecidableEq, Repr

/-- The `PreminterAPI` constructor (premint-api.ts lines 137-145): sets
`rewardPerToken = BigInt("777000000000000")`, stores the chain, looks up
the network config and throws `Not configured for chain {id}` when the
table has no entry. -/
def PreminterAPI.create (chainId : Nat) : Except String PreminterAPI :=
  match networkConfigByChain chainId with
  | none => Except.error ("Not configured for chain " ++ natToDecString chainId)
  | some networkConfig =>
      Except.ok { network := networkConfig
                  chainId := chainId
                  rewardPerToken := decStringToNat "777000000000000" }

/-- `PreminterAPI.getExecutorAddress` (premint-api.ts lines 147-149): always
indexes the address table at key `999`, whatever chain the instance was
constructed for. -/
def PreminterAPI.getExecutorAddress (_api : PreminterAPI) : String :=
  zoraCreator1155PremintExecutorImplAddress 999

/-- `PreminterAPI.getFixedPriceMinterAddress` (premint-api.ts lines
151-153): always indexes the address table at key `999`. -/
def PreminterAPI.getFixedPriceMinterAddress (_api : PreminterAPI) : String :=
  zoraCreatorFixedPriceSaleStrategyAddress 999

/-! ### Registry paths and JSON field access -/

/-- The `next_uid` fetch path of `createPremint` (premint-api.ts lines
217-221): `${ZORA_API_BASE}signature/${backendChainName}/${newContractAddress.toLowerCase()}/next_uid`. -/
def premintNextUidPath (api : PreminterAPI) (newContractAddress : String) : String :=
  ZORA_API_BASE ++ "signature/" ++ api.network.zoraBackendChainName ++ "/" ++
    jsToLowerCase newContractAddress ++ "/next_uid"

/-- The record fetch path of `getPremintData` (premint-api.ts line 282):
`${ZORA_PREMINT_API_BASE}signature/${backendChainName}/${address}/${uid}` —
the address is interpolated exactly as given. -/
def getPremintDataPath (api : PreminterAPI) (address : String) (uid : Nat) : String :=
  ZORA_PREMINT_API_BASE ++ "signature/" ++ api.network.zoraBackendChainName ++
    "/" ++ address ++ "/" ++ natToDecString uid

/-- Look up a key in a JSON object (JS property access `body[key]`). -/
def jsonLookup (key : String) : Json → Option Json
  | Json.obj fields => fields.lookup key
  | _ => none

/-- `uidResponse["next_uid"]` read as a number (premint-api.ts line 222):
absent fields and non-numeric values yield `none` (JS `undefined`). -/
def jsonNextUid (body : Json) : Option Nat :=
  match jsonLookup "next_uid" body with
  | some (Json.num n) => some n
  | _ => none

/-! ### The `createPremint` flow (premint-api.ts lines 175-278) -/

/-- `executionSettings` of `createPremint` (premint-api.ts lines 190-193). -/
structure ExecutionSettings where
  deleted : Option Bool := none
  uid : Option Nat := none
  deriving DecidableEq, Repr

/-- The named parameters of `createPremint` (premint-api.ts lines 175-194).
The external `publicClient` / `walletClient` capabilities live in `Env`. -/
structure CreatePremintParams where
  account : String
  checkSignature : Bool := true
  collection : CollectionT
  mint : MintArgumentsSettings
  executionSettings : Option ExecutionSettings := none
  deriving DecidableEq, Repr

/-- The request passed to `walletClient.signTypedData` (premint-api.ts lines
238-245): account plus the typed-data definition built from the verifying
contract, premint config and chain id. -/
structure SignRequest where
  account : String
  verifyingContract : String
  premintConfig : PremintConfig
  chainId : Nat
  deriving DecidableEq, Repr

/-- The body of the registry submission (premint-api.ts lines 259-264). -/
structure ApiData where
  collection : CollectionT
  premint : PremintWire
  chain_name : String
  signature : String
  deriving DecidableEq, Repr

/-- One externally visible side effect of a flow, in execution order. -/
inductive Effect where
  | chainRead : String → String → Effect
  | walletSign : SignRequest → Effect
  | registryGet : String → Effect
  | registryPost : String → ApiData → Effect
  deriving DecidableEq, Repr

/-- Whether an effect is a read request to the registry service. -/
def Effect.isRegistryGet : Effect → Bool
  | Effect.registryGet _ => true
  | _ => false

/-- Whether an effect is a write request to the registry service. -/
def Effect.isRegistryPost : Effect → Bool
  | Effect.registryPost _ _ => true
  | _ => false

/-- The external collaborators of `createPremint` /
`executePremintWithWallet`: deterministic oracles for the chain interface,
the registry service and the wallet. -/
structure Env where
  getContractAddress : CollectionT → String
  fetch : String → HttpResponse
  fetchPost : String → HttpResponse
  signTypedData : SignRequest → String
  isValidSignature : CollectionT → PremintConfig → String → Bool × String × String

/-- The value returned by a successful `createPremint` (premint-api.ts lines
268-277). -/
structure CreateResult where
  url : String
  uid : Nat
  newContractAddress : String
  premint : Json
  deriving Repr

/-- The collect URL of the `createPremint` result (premint-api.ts lines
269-273). -/
def collectUrl (api : PreminterAPI) (newContractAddress : String) (uid : Nat) : String :=
  "https://" ++ (if api.network.isTestnet then "testnet." else "") ++
    "zora.co/collect:" ++ api.network.zoraPathChainName ++ ":" ++
    newContractAddress ++ "/premint-" ++ natToDecString uid

/-- The uid-resolution phase of `createPremint` (premint-api.ts lines
215-223): `let uid = executionSettings?.uid; if (!uid) { const uidResponse =
await this.get(nextUidPath); uid = uidResponse["next_uid"] }`.  A JS-falsy
uid — absent or `0` — triggers the registry read. -/
def uidPhase (env : Env) (api : PreminterAPI) (p : CreatePremintParams)
    (newContractAddress : String) : Except String (Option Nat) × List Effect :=
  let explicitUid := p.executionSettings.bind ExecutionSettings.uid
  if explicitUid.getD 0 = 0 then
    let path := premintNextUidPath api newContractAddress
    match PreminterAPI.get (env.fetch path) with
    | Except.error e => (Except.error e, [Effect.registryGet path])
    | Except.ok body => (Except.ok (jsonNextUid body), [Effect.registryGet path])
  else
    (Except.ok explicitUid, [])

/-- The premint configuration `createPremint` assembles (premint-api.ts
lines 208-213 and 229-236) once the uid `u` is resolved. -/
def builtPremintConfig (api : PreminterAPI) (p : CreatePremintParams) (u : Nat) :
    PremintConfig :=
  { tokenConfig := mergeTokenConfig api.getFixedPriceMinterAddress p.account p.mint
    uid := u
    version := 1
    deleted := (p.executionSettings.bind ExecutionSettings.deleted).getD false }

/-- The signature `createPremint` obtains from the wallet (premint-api.ts
lines 238-245). -/
def builtSignature (env : Env) (api : PreminterAPI) (p : CreatePremintParams)
    (newContractAddress : String) (u : Nat) : String :=
  env.signTypedData
    { account := p.account
      verifyingContract := newContractAddress
      premintConfig := builtPremintConfig api p u
      chainId := api.chainId }

/-- The tail of `createPremint` after uid resolution (premint-api.ts lines
229-277): build the premint config, sign, optionally verify the signature
on chain (aborting with `Invalid signature` when invalid), submit to the
registry and assemble the result.  `fx` is the effect trace accumulated so
far. -/
def createPremintAfterUid (env : Env) (api : PreminterAPI)
    (p : CreatePremintParams) (newContractAddress : String) (u : Nat)
    (fx : List Effect) : Except String CreateResult × List Effect :=
  let premintConfig := builtPremintConfig api p u
  let signature := builtSignature env api p newContractAddress u
  let fx1 := fx ++ [Effect.walletSign
    { account := p.account
      verifyingContract := newContractAddress
      premintConfig := premintConfig
      chainId := api.chainId }]
  let fx2 := if p.checkSignature then
      fx1 ++ [Effect.chainRead "isValidSignature" api.getExecutorAddress]
    else fx1
  if p.checkSignature ∧
      (env.isValidSignature p.collection premintConfig signature).1 = false then
    (Except.error "Invalid signature", fx2)
  else
    let apiData : ApiData :=
      { collection := p.collection
        premint := encodePremintForAPI premintConfig
        chain_name := api.network.zoraBackendChainName
        signature := signature }
    let postPath := ZORA_API_BASE ++ "signature"
    let fx3 := fx2 ++ [Effect.registryPost postPath apiData]
    match PreminterAPI.post (env.fetchPost postPath) with
    | Except.error e => (Except.error e, fx3)
    | Except.ok premint =>
        (Except.ok
          { url := collectUrl api newContractAddress u
            uid := u
            newContractAddress := newContractAddress
            premint := premint },
         fx3)

/-- `PreminterAPI.createPremint` (premint-api.ts lines 175-278): read the
deterministic contract address, resolve the uid (throwing `UID is missing
but required` when no usable value is found), then sign, optionally verify,
and submit. -/
def createPremint (env : Env) (api : PreminterAPI) (p : CreatePremintParams) :
    Except String CreateResult × List Effect :=
  let newContractAddress := env.getContractAddress p.collection
  let fx0 := [Effect.chainRead "getContractAddress" api.getExecutorAddress]
  match uidPhase env api p newContractAddress with
  | (Except.error e, fx1) => (Except.error e, fx0 ++ fx1)
  | (Except.ok uidOpt, fx1) =>
      if uidOpt.getD 0 = 0 then
        (Except.error "UID is missing but required", fx0 ++ fx1)
      else
        createPremintAfterUid env api p newContractAddress (uidOpt.getD 0)
          (fx0 ++ fx1)

/-- `PreminterAPI.getPremintData` (premint-api.ts lines 280-285): a single
registry GET at `getPremintDataPath` returning the body as-is. -/
def getPremintData (env : Env) (api : PreminterAPI) (address : String)
    (uid : Nat) : Except String Json × List Effect :=
  (PreminterAPI.get (env.fetch (getPremintDataPath api address uid)),
   [Effect.registryGet (getPremintDataPath api address uid)])

/-! ### `executePremintWithWallet` (premint-api.ts lines 309-361) -/

/-- `mintArguments` of `executePremintWithWallet` (premint-api.ts lines
319-322). -/
structure MintArguments where
  quantityToMint : Nat
  mintComment : String
  deriving DecidableEq, Repr

/-- The argument tuple of the on-chain `premint` call (premint-api.ts lines
326-332). -/
structure WriteCallArgs where
  collection : CollectionT
  premintConfig : PremintConfig
  signature : String
  quantityToMint : Nat
  mintComment : String
  deriving DecidableEq, Repr

/-- The state-mutating contract call submitted via `walletClient.writeContract`
(premint-api.ts lines 340-360): the same function name, target address,
attached native-currency value and argument tuple are used on both the
simulate-first and the direct branch. -/
structure WriteCall where
  functionName : String
  address : String
  value : Nat
  args : WriteCallArgs
  deriving DecidableEq, Repr

/-- `PreminterAPI.executePremintWithWallet` (premint-api.ts lines 309-361)
as the write call it submits: `value = mintArguments.quantityToMint *
this.rewardPerToken`, target `this.getExecutorAddress()`, args
`[collection, convertPremint(premint), signature, quantityToMint,
mintComment]`. -/
def executePremintWithWallet (api : PreminterAPI) (data : PremintResponse)
    (mintArguments : MintArguments) : WriteCall :=
  { functionName := "premint"
    address := api.getExecutorAddress
    value := mintArguments.quantityToMint * api.rewardPerToken
    args :=
      { collection := data.collection
        premintConfig := convertPremint data.premint
        signature := data.signature
        quantityToMint := mintArguments.quantityToMint
        mintComment := mintArguments.mintComment } }

/-! ### JSON serialization of the wire token config (for the registry POST
body, `JSON.stringify(data)` in premint-api.ts line 167) -/

/-- `JSON.stringify` of a `TokenConfigWire` value: the five string-typed
fields serialize as JSON strings, `royaltyMintSchedule` and `royaltyBPS`
as JSON numbers, field order as in the type. -/
def tokenConfigWireToJson (t : TokenConfigWire) : Json :=
  Json.obj
    [("tokenURI", Json.str t.tokenURI),
     ("maxSupply", Json.str t.maxSupply),
     ("maxTokensPerAddress", Json.str t.maxTokensPerAddress),
     ("pricePerToken", Json.str t.pricePerToken),
     ("mintStart", Json.str t.mintStart),
     ("mintDuration", Json.str t.mintDuration),
     ("royaltyMintSchedule", Json.num t.royaltyMintSchedule),
     ("royaltyBPS", Json.num t.royaltyBPS),
     ("royaltyRecipient", Json.str t.royaltyRecipient),
     ("fixedPriceMinter", Json.str t.fixedPriceMinter)]

/-- Following the spec's words for claim C3 ("serializes all integer fields
of `tokenConfig` as decimal-string representations, and passes all other
fields through verbatim"): the wire JSON this reading would produce, with
`royaltyMintSchedule` and `royaltyBPS` also rendered as decimal strings.
For comparison with the encoder actually in the source. -/
def specTokenConfigJson (t : TokenConfig) : Json :=
  Json.obj
    [("tokenURI", Json.str t.tokenURI),
     ("maxSupply", Json.str (natToDecString t.maxSupply)),
     ("maxTokensPerAddress", Json.str (natToDecString t.maxTokensPerAddress)),
     ("pricePerToken", Json.str (natToDecString t.pricePerToken)),
     ("mintStart", Json.str (natToDecString t.mintStart)),
     ("mintDuration", Json.str (natToDecString t.mintDuration)),
     ("royaltyMintSchedule", Json.str (natToDecString t.royaltyMintSchedule)),
     ("royaltyBPS", Json.str (natToDecString t.royaltyBPS)),
     ("royaltyRecipient", Json.str t.royaltyRecipient),
     ("fixedPriceMinter", Json.str t.fixedPriceMinter)]

/-! ### Sample fixtures used by concrete-input theorems -/

/-- A concrete decoded token configuration. -/
def sampleTokenConfig : TokenConfig :=
  { tokenURI := "ipfs://t"
    maxSupply := 100
    maxTokensPerAddress := 2
    pricePerToken := 5
    mintStart := 0
    mintDuration := 604800
    royaltyMintSchedule := 0
    royaltyBPS := 1000
    royaltyRecipient := "0xA"
    fixedPriceMinter := "0xF" }

/-- A concrete decoded premint configuration. -/
def samplePremintConfig : PremintConfig :=
  { tokenConfig := sampleTokenConfig
    uid := 3
    version := 1
    deleted := false }

/-- A concrete collection. -/
def sampleCollection : CollectionT :=
  { contractAdmin := "0xA"
    contractURI := "ipfs://c"
    contractName := "Test" }

/-- A concrete wire-format premint record, as fetched from the registry. -/
def sampleResponse : PremintResponse :=
  { collection := sampleCollection
    premint := encodePremintForAPI samplePremintConfig
    chain_name := "ZORA-TESTNET"
    signature := "0xsig" }

/-- A concrete `PreminterAPI` instance value (the foundry test network). -/
def sampleApi : PreminterAPI :=
  { network :=
      { chainId := foundryChainId
        zoraPathChainName := "zora"
        zoraBackendChainName := BackendChainNames.ZORA_TESTNET
        isTestnet := true }
    chainId := foundryChainId
    rewardPerToken := 777000000000000 }

/-- A concrete environment whose chain interface reports every signature
invalid and whose registry always answers status 200 with `next_uid = 7`. -/
def sampleEnvInvalidSig : Env :=
  { getContractAddress := fun _ => "0xCoLLection"
    fetch := fun _ => { status := 200, body := Json.obj [("next_uid", Json.num 7)] }
    fetchPost := fun _ => { status := 200, body := Json.obj [("ok", Json.bool true)] }
    signTypedData := fun _ => "0xsig"
    isValidSignature := fun _ _ _ => (false, "0xCoLLection", "0xA") }

/-- A concrete environment whose chain interface reports every signature
valid and whose registry always answers status 200 with `next_uid = 7`. -/
def sampleEnvValidSig : Env :=
  { getContractAddress := fun _ => "0xCoLLection"
    fetch := fun _ => { status := 200, body := Json.obj [("next_uid", Json.num 7)] }
    fetchPost := fun _ => { status := 200, body := Json.obj [("ok", Json.bool true)] }
    signTypedData := fun _ => "0xsig"
    isValidSignature := fun _ _ _ => (true, "0xCoLLection", "0xA") }

/-- Concrete `createPremint` parameters: explicit nonzero uid 5. -/
def sampleParamsUid5 : CreatePremintParams :=
  { account := "0xA"
    checkSignature := true
    collection := sampleCollection
    mint := { tokenURI := "ipfs://t" }
    executionSettings := some { uid := some 5 } }

/-- Concrete `createPremint` parameters: no execution settings at all. -/
def sampleParamsNoUid : CreatePremintParams :=
  { account := "0xA"
    checkSignature := true
    collection := sampleCollection
    mint := { tokenURI := "ipfs://t" }
    executionSettings := none }

/-- The `PreminterAPI` instance value the constructor produces for the Zora
mainnet chain id. -/
def apiZoraMainnet : PreminterAPI :=
  { network :=
      { chainId := zoraChainId
        zoraPathChainName := "zora"
        zoraBackendChainName := BackendChainNames.ZORA_MAINNET
        isTestnet := false }
    chainId := zoraChainId
    rewardPerToken := decStringToNat "777000000000000" }

/-! ## Theorems -/

/-! ### Decimal string round-trip lemmas -/

theorem decDigitsToNat_append (ds : List Nat) (d : Nat) :
    decDigitsToNat (ds ++ [d]) = 10 * decDigitsToNat ds + d := by
  simp [decDigitsToNat, List.foldl_append]

theorem natToDecDigitsAux_spec (fuel : Nat) :
    ∀ n, n < fuel → decDigitsToNat (natToDecDigitsAux fuel n) = n := by
  induction fuel with
  | zero => intro n h; omega
  | succ fuel ih =>
      intro n h
      by_cases h10 : n < 10
      · simp [natToDecDigitsAux, h10, decDigitsToNat]
      · have hdiv : n / 10 < n := Nat.div_lt_self (by omega) (by omega)
        rw [natToDecDigitsAux, if_neg h10, decDigitsToNat_append,
          ih (n / 10) (by omega)]
        have := Nat.div_add_mod n 10
        omega

theorem decDigitsToNat_natToDecDigits (n : Nat) :
    decDigitsToNat (natToDecDigits n) = n :=
  natToDecDigitsAux_spec (n + 1) n (Nat.lt_succ_self n)

theorem natToDecDigitsAux_lt_ten (fuel : Nat) :
    ∀ n d, d ∈ natToDecDigitsAux fuel n → d < 10 := by
  induction fuel with
  | zero => intro n d h; simp [natToDecDigitsAux] at h
  | succ fuel ih =>
      intro n d h
      by_cases h10 : n < 10
      · simp [natToDecDigitsAux, h10] at h
        omega
      · rw [natToDecDigitsAux, if_neg h10] at h
        rcases List.mem_append.1 h with h1 | h1
        · exact ih _ _ h1
        · simp at h1
          omega

theorem charDigit_digitChar (d : Nat) (h : d < 10) :
    charDigit (digitChar d) = d := by
  interval_cases d <;> decide

theorem decStringToNat_natToDecString (n : Nat) :
    decStringToNat (natToDecString n) = n := by
  show decDigitsToNat (((natToDecDigits n).map digitChar).map charDigit) = n
  rw [List.map_map]
  have h : (natToDecDigits n).map (charDigit ∘ digitChar) = (natToDecDigits n).map id :=
    List.map_congr_left (fun d hd =>
      charDigit_digitChar d (natToDecDigitsAux_lt_ten (n + 1) n d hd))
  rw [h, List.map_id]
  exact decDigitsToNat_natToDecDigits n

/-! ### ASCII lower-casing lemmas -/

theorem char_toNat_ofNat_valid (n : Nat) (h : n.isValidChar) :
    (Char.ofNat n).toNat = n := by
  simp [Char.ofNat, h, Char.toNat, Char.ofNatAux]
  rfl

theorem char_toLower_toNat_of_upper (c : Char) (h65 : 65 ≤ c.toNat)
    (h90 : c.toNat ≤ 90) : (Char.toLower c).toNat = c.toNat + 32 := by
  unfold Char.toLower
  rw [if_pos ⟨h65, h90⟩]
  exact char_toNat_ofNat_valid _ (Or.inl (by omega))

theorem char_toLower_eq_self_of_not_upper (c : Char)
    (h : ¬(65 ≤ c.toNat ∧ c.toNat ≤ 90)) : Char.toLower c = c := by
  unfold Char.toLower
  rw [if_neg h]

theorem char_toLower_toLower (c : Char) :
    Char.toLower (Char.toLower c) = Char.toLower c := by
  by_cases h : 65 ≤ c.toNat ∧ c.toNat ≤ 90
  · have h1 := char_toLower_toNat_of_upper c h.1 h.2
    exact char_toLower_eq_self_of_not_upper _ (by omega)
  · rw [char_toLower_eq_self_of_not_upper c h, char_toLower_eq_self_of_not_upper c h]

theorem char_toLower_ne_of_isUpper (c : Char) (h : c.isUpper = true) :
    Char.toLower c ≠ c := by
  simp [Char.isUpper] at h
  intro heq
  have h1 := char_toLower_toNat_of_upper c h.1 h.2
  rw [heq] at h1
  omega

theorem jsToLowerCase_idempotent (s : String) :
    jsToLowerCase (jsToLowerCase s) = jsToLowerCase s := by
  apply String.ext
  show (s.data.map Char.toLower).map Char.toLower = s.data.map Char.toLower
  rw [List.map_map]
  exact List.map_congr_left (fun c _ => char_toLower_toLower c)

theorem eq_of_map_eq_self {α : Type} (f : α → α) :
    ∀ (l : List α), l.map f = l → ∀ x ∈ l, f x = x := by
  intro l
  induction l with
  | nil => simp
  | cons a l ih =>
      intro h x hx
      simp only [List.map_cons, List.cons.injEq] at h
      rcases List.mem_cons.1 hx with rfl | hx
      · exact h.1
      · exact ih h.2 x hx

theorem jsToLowerCase_ne_of_upper (s : String) (c : Char) (hc : c ∈ s.data)
    (hu : c.isUpper = true) : jsToLowerCase s ≠ s := by
  intro heq
  have hd : s.data.map Char.toLower = s.data := congrArg String.data heq
  exact char_toLower_ne_of_isUpper c hu (eq_of_map_eq_self Char.toLower s.data hd c hc)

/-! ### Flow lemmas for `createPremint` -/

theorem uidPhase_explicit (env : Env) (api : PreminterAPI)
    (p : CreatePremintParams) (addr : String) (u : Nat)
    (h : p.executionSettings.bind ExecutionSettings.uid = some u) (hu : u ≠ 0) :
    uidPhase env api p addr = (Except.ok (some u), []) := by
  unfold uidPhase
  rw [h]
  simp [hu]

theorem uidPhase_fetch (env : Env) (api : PreminterAPI)
    (p : CreatePremintParams) (addr : String)
    (h : (p.executionSettings.bind ExecutionSettings.uid).getD 0 = 0) :
    uidPhase env api p addr =
      (Except.ok (jsonNextUid (env.fetch (premintNextUidPath api addr)).body),
       [Effect.registryGet (premintNextUidPath api addr)]) := by
  unfold uidPhase
  rw [if_pos h]
  rfl

theorem uidPhase_no_registry_post (env : Env) (api : PreminterAPI)
    (p : CreatePremintParams) (addr : String) :
    (uidPhase env api p addr).2.filter Effect.isRegistryPost = [] := by
  unfold uidPhase
  by_cases h : (p.executionSettings.bind ExecutionSettings.uid).getD 0 = 0
  · simp [h, PreminterAPI.get, Effect.isRegistryPost]
  · simp [h, Effect.isRegistryPost]

theorem createPremintAfterUid_trace_shape (env : Env) (api : PreminterAPI)
    (p : CreatePremintParams) (addr : String) (u : Nat) (fx : List Effect) :
    ∃ rest : List Effect,
      (createPremintAfterUid env api p addr u fx).2 =
        fx ++ Effect.walletSign
          { account := p.account
            verifyingContract := addr
            premintConfig := builtPremintConfig api p u
            chainId := api.chainId } :: rest ∧
      rest.filter Effect.isRegistryGet = [] := by
  unfold createPremintAfterUid
  by_cases hc : p.checkSignature
  · by_cases hv : (env.isValidSignature p.collection (builtPremintConfig api p u)
        (builtSignature env api p addr u)).1 = false
    · refine ⟨[Effect.chainRead "isValidSignature" api.getExecutorAddress],
        ?_, by simp [Effect.isRegistryGet]⟩
      simp [hc, hv]
    · cases hpost : PreminterAPI.post (env.fetchPost (ZORA_API_BASE ++ "signature")) with
      | error e =>
          refine ⟨[Effect.chainRead "isValidSignature" api.getExecutorAddress,
            Effect.registryPost (ZORA_API_BASE ++ "signature")
              { collection := p.collection
                premint := encodePremintForAPI (builtPremintConfig api p u)
                chain_name := api.network.zoraBackendChainName
                signature := builtSignature env api p addr u }],
            ?_, by simp [Effect.isRegistryGet]⟩
          simp [hc, hv, hpost]
      | ok premint =>
          refine ⟨[Effect.chainRead "isValidSignature" api.getExecutorAddress,
            Effect.registryPost (ZORA_API_BASE ++ "signature")
              { collection := p.collection
                premint := encodePremintForAPI (builtPremintConfig api p u)
                chain_name := api.network.zoraBackendChainName
                signature := builtSignature env api p addr u }],
            ?_, by simp [Effect.isRegistryGet]⟩
          simp [hc, hv, hpost]
  · cases hpost : PreminterAPI.post (env.fetchPost (ZORA_API_BASE ++ "signature")) with
    | error e =>
        refine ⟨[Effect.registryPost (ZORA_API_BASE ++ "signature")
          { collection := p.collection
            premint := encodePremintForAPI (builtPremintConfig api p u)
            chain_name := api.network.zoraBackendChainName
            signature := builtSignature env api p addr u }],
          ?_, by simp [Effect.isRegistryGet]⟩
        simp [hc, hpost]
    | ok premint =>
        refine ⟨[Effect.registryPost (ZORA_API_BASE ++ "signature")
          { collection := p.collection
            premint := encodePremintForAPI (builtPremintConfig api p u)
            chain_name := api.network.zoraBackendChainName
            signature := builtSignature env api p addr u }],
          ?_, by simp [Effect.isRegistryGet]⟩
        simp [hc, hpost]

theorem createPremintAfterUid_invalid_sig (env : Env) (api : PreminterAPI)
    (p : CreatePremintParams) (addr : String) (u : Nat) (fx : List Effect)
    (hc : p.checkSignature = true)
    (hv : (env.isValidSignature p.collection (builtPremintConfig api p u)
      (builtSignature env api p addr u)).1 = false) :
    (createPremintAfterUid env api p addr u fx).1 = Except.error "Invalid signature" ∧
    (createPremintAfterUid env api p addr u fx).2.filter Effect.isRegistryPost =
      fx.filter Effect.isRegistryPost := by
  unfold createPremintAfterUid
  simp [hc, hv, Effect.isRegistryPost, List.filter_append]

theorem createPremintAfterUid_uid_of_ok (env : Env) (api : PreminterAPI)
    (p : CreatePremintParams) (addr : String) (u : Nat) (fx : List Effect)
    (r : CreateResult)
    (h : (createPremintAfterUid env api p addr u fx).1 = Except.ok r) :
    r.uid = u := by
  unfold createPremintAfterUid at h
  by_cases hcond : p.checkSignature ∧ (env.isValidSignature p.collection
      (builtPremintConfig api p u) (builtSignature env api p addr u)).1 = false
  · simp [hcond] at h
  · simp only [hcond, if_false, ite_false, if_neg hcond] at h
    cases hpost : PreminterAPI.post (env.fetchPost (ZORA_API_BASE ++ "signature")) with
    | error e => rw [hpost] at h; simp at h
    | ok premint =>
        rw [hpost] at h
        simp at h
        rw [← h]

theorem createPremint_of_explicit_uid (env : Env) (api : PreminterAPI)
    (p : CreatePremintParams) (u : Nat)
    (h : p.executionSettings.bind ExecutionSettings.uid = some u) (hu : u ≠ 0) :
    createPremint env api p =
      createPremintAfterUid env api p (env.getContractAddress p.collection) u
        [Effect.chainRead "getContractAddress" api.getExecutorAddress] := by
  simp only [createPremint,
    uidPhase_explicit env api p (env.getContractAddress p.collection) u h hu]
  simp [hu]

theorem createPremint_of_fetched_uid (env : Env) (api : PreminterAPI)
    (p : CreatePremintParams)
    (h : (p.executionSettings.bind ExecutionSettings.uid).getD 0 = 0) :
    createPremint env api p =
      (let addr := env.getContractAddress p.collection
       let fetched := jsonNextUid (env.fetch (premintNextUidPath api addr)).body
       let fx := [Effect.chainRead "getContractAddress" api.getExecutorAddress,
         Effect.registryGet (premintNextUidPath api addr)]
       if fetched.getD 0 = 0 then
         (Except.error "UID is missing but required", fx)
       else
         createPremintAfterUid env api p addr (fetched.getD 0) fx) := by
  simp only [createPremint,
    uidPhase_fetch env api p (env.getContractAddress p.collection) h]
  by_cases h0 : (jsonNextUid
      (env.fetch (premintNextUidPath api (env.getContractAddress p.collection))).body).getD 0 = 0
  · simp [h0]
  · simp [h0]

/-! ### Claim C1: status handling of registry calls -/

/-- C1 counterexample: the claim says every registry call fails on a
non-success status, but `PreminterAPI.get` at status 500 silently returns
the parsed body. -/
theorem registry_get_ignores_status :
    PreminterAPI.get { status := 500, body := Json.num 7 } =
      Except.ok (Json.num 7) := rfl

/-- C1 (amended): only the POST submission checks the HTTP status — it
fails with `Bad response: {status}` on any status other than 200 and never
returns the body of such a response — while the GET requests return the
parsed body whatever the status is. -/
theorem registry_status_handling (r : HttpResponse) :
    PreminterAPI.get r = Except.ok r.body ∧
    (r.status ≠ 200 → PreminterAPI.post r =
      Except.error ("Bad response: " ++ natToDecString r.status)) ∧
    (r.status = 200 → PreminterAPI.post r = Except.ok r.body) := by
  refine ⟨rfl, ?_, ?_⟩
  · intro h
    simp [PreminterAPI.post, h]
  · intro h
    simp [PreminterAPI.post, h]

/-- C1 witness: the amended statement evaluated at status 500 and at
status 200. -/
theorem registry_status_handling_witness :
    PreminterAPI.get { status := 500, body := Json.num 7 } =
      Except.ok (Json.num 7) ∧
    PreminterAPI.post { status := 500, body := Json.num 7 } =
      Except.error "Bad response: 500" ∧
    PreminterAPI.post { status := 200, body := Json.num 7 } =
      Except.ok (Json.num 7) := by
  refine ⟨(registry_status_handling { status := 500, body := Json.num 7 }).1,
    ?_, (registry_status_handling { status := 200, body := Json.num 7 }).2.2 rfl⟩
  have h := (registry_status_handling { status := 500, body := Json.num 7 }).2.1
    (by decide)
  have h500 : natToDecString 500 = "500" := by decide
  rw [h500] at h
  exact h

/-! ### Claim C2: the network-config fixture table -/

/-- C2: the fixture table violates the claim — looking up chain id 999
(`zoraTestnet.id`) yields a `NetworkConfig` whose `chainId` field is
7777777 (`zora.id`), not the chain id that was looked up. -/
theorem networkConfigByChain_999_chainId :
    (networkConfigByChain zoraTestnetChainId).map NetworkConfig.chainId =
      some zoraChainId ∧
    zoraTestnetChainId ≠ zoraChainId := by decide

/-! ### Claim C3: which fields the wire-format encoder stringifies -/

/-- C3 counterexample: the claim says `royaltyBPS` (an integer field of
`tokenConfig`) is serialized as a decimal string, but in the wire JSON of
the encoder output it is a JSON number passed through verbatim, which is a
different JSON value than the decimal string the spec words prescribe. -/
theorem encode_royaltyBPS_passthrough :
    jsonLookup "royaltyBPS"
      (tokenConfigWireToJson (encodePremintForAPI samplePremintConfig).tokenConfig) =
      some (Json.num 1000) ∧
    jsonLookup "royaltyBPS" (specTokenConfigJson samplePremintConfig.tokenConfig) =
      some (Json.str (natToDecString 1000)) ∧
    Json.num 1000 ≠ Json.str (natToDecString 1000) := by
  refine ⟨rfl, rfl, ?_⟩
  intro h
  exact Json.noConfusion h

/-- C3 (amended): the encoder serializes exactly the five bigint fields
(`maxSupply`, `maxTokensPerAddress`, `pricePerToken`, `mintStart`,
`mintDuration`) as decimal strings; the two plain integer fields
(`royaltyMintSchedule`, `royaltyBPS`) and all remaining fields pass
through verbatim. -/
theorem encodePremintForAPI_wire_json (p : PremintConfig) :
    tokenConfigWireToJson (encodePremintForAPI p).tokenConfig =
      Json.obj
        [("tokenURI", Json.str p.tokenConfig.tokenURI),
         ("maxSupply", Json.str (natToDecString p.tokenConfig.maxSupply)),
         ("maxTokensPerAddress",
           Json.str (natToDecString p.tokenConfig.maxTokensPerAddress)),
         ("pricePerToken", Json.str (natToDecString p.tokenConfig.pricePerToken)),
         ("mintStart", Json.str (natToDecString p.tokenConfig.mintStart)),
         ("mintDuration", Json.str (natToDecString p.tokenConfig.mintDuration)),
         ("royaltyMintSchedule", Json.num p.tokenConfig.royaltyMintSchedule),
         ("royaltyBPS", Json.num p.tokenConfig.royaltyBPS),
         ("royaltyRecipient", Json.str p.tokenConfig.royaltyRecipient),
         ("fixedPriceMinter", Json.str p.tokenConfig.fixedPriceMinter)] := rfl

/-! ### Claim C4: wire-format round trip -/

/-- C4: decoding the encoded wire form yields the original premint config
bit-identically — for every `PremintConfig`, hence in particular for the
boundary values 0, 1 and 2^64 − 1 of each bigint field. -/
theorem convertPremint_encodePremintForAPI (p : PremintConfig) :
    convertPremint (encodePremintForAPI p) = p := by
  cases p with
  | mk tc uid version deleted =>
      cases tc
      simp [convertPremint, encodePremintForAPI, decStringToNat_natToDecString]

/-! ### Claim C5: the native-currency value of the premint call -/

/-- C5: for an instance built by the constructor, `executePremintWithWallet`
attaches exactly `quantityToMint × 777000000000000` minor units of native
currency to the state-mutating `premint` call. -/
theorem executePremintWithWallet_value (chainId : Nat) (api : PreminterAPI)
    (h : PreminterAPI.create chainId = Except.ok api)
    (data : PremintResponse) (m : MintArguments) :
    (executePremintWithWallet api data m).value =
      m.quantityToMint * 777000000000000 := by
  have hr : api.rewardPerToken = 777000000000000 := by
    unfold PreminterAPI.create at h
    cases hn : networkConfigByChain chainId with
    | none => rw [hn] at h; simp at h
    | some cfg =>
        rw [hn] at h
        simp only [Except.ok.injEq] at h
        rw [← h]
        show decStringToNat "777000000000000" = 777000000000000
        decide
  simp [executePremintWithWallet, hr]

/-- C5 witness: the foundry-chain instance with `quantityToMint = 3` sends
exactly 2331000000000000 minor units. -/
theorem executePremintWithWallet_value_witness :
    PreminterAPI.create foundryChainId = Except.ok sampleApi ∧
    (executePremintWithWallet sampleApi sampleResponse
      { quantityToMint := 3, mintComment := "" }).value = 2331000000000000 := by
  constructor
  · rfl
  · have h := executePremintWithWallet_value foundryChainId sampleApi (by rfl)
      sampleResponse { quantityToMint := 3, mintComment := "" }
    simpa using h

/-! ### Claim C8: the token-config merge -/

/-- C8: with no caller overrides the merge reproduces exactly the default
table plus the two context-derived fields (`royaltyRecipient` = requesting
account, `fixedPriceMinter` = resolved minter address), and supplying any
single override field — including the two context-derived ones — changes
only that field. -/
theorem mergeTokenConfig_defaults_and_overrides (f a uri : String) :
    (mergeTokenConfig f a { tokenURI := uri } =
      { tokenURI := uri
        maxSupply := 18446744073709551615
        maxTokensPerAddress := 0
        pricePerToken := 0
        mintStart := 0
        mintDuration := 604800
        royaltyMintSchedule := 0
        royaltyBPS := 1000
        royaltyRecipient := a
        fixedPriceMinter := f }) ∧
    (∀ v : Nat, mergeTokenConfig f a { tokenURI := uri, maxSupply := some v } =
      { mergeTokenConfig f a { tokenURI := uri } with maxSupply := v }) ∧
    (∀ v : Nat, mergeTokenConfig f a { tokenURI := uri, maxTokensPerAddress := some v } =
      { mergeTokenConfig f a { tokenURI := uri } with maxTokensPerAddress := v }) ∧
    (∀ v : Nat, mergeTokenConfig f a { tokenURI := uri, pricePerToken := some v } =
      { mergeTokenConfig f a { tokenURI := uri } with pricePerToken := v }) ∧
    (∀ v : Nat, mergeTokenConfig f a { tokenURI := uri, mintStart := some v } =
      { mergeTokenConfig f a { tokenURI := uri } with mintStart := v }) ∧
    (∀ v : Nat, mergeTokenConfig f a { tokenURI := uri, mintDuration := some v } =
      { mergeTokenConfig f a { tokenURI := uri } with mintDuration := v }) ∧
    (∀ v : Nat, mergeTokenConfig f a { tokenURI := uri, royaltyMintSchedule := some v } =
      { mergeTokenConfig f a { tokenURI := uri } with royaltyMintSchedule := v }) ∧
    (∀ v : Nat, mergeTokenConfig f a { tokenURI := uri, royaltyBPS := some v } =
      { mergeTokenConfig f a { tokenURI := uri } with royaltyBPS := v }) ∧
    (∀ r : String, mergeTokenConfig f a { tokenURI := uri, royaltyRecipient := some r } =
      { mergeTokenConfig f a { tokenURI := uri } with royaltyRecipient := r }) ∧
    (∀ fp : String, mergeTokenConfig f a { tokenURI := uri, fixedPriceMinter := some fp } =
      { mergeTokenConfig f a { tokenURI := uri } with fixedPriceMinter := fp }) := by
  have hms : decStringToNat OPEN_EDITION_MINT_SIZE = 18446744073709551615 := by
    decide
  refine ⟨?_, fun v => rfl, fun v => rfl, fun v => rfl, fun v => rfl,
    fun v => rfl, fun v => rfl, fun v => rfl, fun r => rfl, fun fp => rfl⟩
  simp [mergeTokenConfig, DefaultMintArguments, hms]

/-! ### Claim C9: per-chain resolution of the deployed contract addresses -/

/-- C9 counterexample: the instance constructed for the Zora mainnet chain
id does not return the executor (or fixed-price minter) address deployed on
that chain — both getters index the address tables at the fixed key 999. -/
theorem getExecutorAddress_not_per_chain :
    PreminterAPI.create zoraChainId = Except.ok apiZoraMainnet ∧
    apiZoraMainnet.getExecutorAddress ≠
      zoraCreator1155PremintExecutorImplAddress zoraChainId ∧
    apiZoraMainnet.getFixedPriceMinterAddress ≠
      zoraCreatorFixedPriceSaleStrategyAddress zoraChainId := by
  refine ⟨rfl, ?_, ?_⟩ <;> decide

/-- C9 (amended): for every chain the constructor accepts,
`getExecutorAddress` and `getFixedPriceMinterAddress` return the addresses
deployed on chain 999 (the Zora testnet), regardless of the chain the
instance was constructed for. -/
theorem executor_addresses_fixed_at_999 (chainId : Nat) (api : PreminterAPI)
    (_h : PreminterAPI.create chainId = Except.ok api) :
    api.getExecutorAddress = zoraCreator1155PremintExecutorImplAddress 999 ∧
    api.getFixedPriceMinterAddress =
      zoraCreatorFixedPriceSaleStrategyAddress 999 :=
  ⟨rfl, rfl⟩

/-- C9 witness: the amended statement at the Zora mainnet instance. -/
theorem executor_addresses_fixed_at_999_witness :
    apiZoraMainnet.getExecutorAddress =
      zoraCreator1155PremintExecutorImplAddress 999 ∧
    apiZoraMainnet.getFixedPriceMinterAddress =
      zoraCreatorFixedPriceSaleStrategyAddress 999 :=
  executor_addresses_fixed_at_999 zoraChainId apiZoraMainnet (by rfl)

/-! ### Claim C10: address casing in registry paths -/

/-- C10: for any address containing an upper-case character,
`getPremintData` requests a path embedding the address exactly as given —
so it distinguishes that address from its lower-cased form — while
`createPremint`'s `next_uid` fetch path lower-cases the address and is
identical for both forms; the two operations can therefore address
different registry paths for the same collection. -/
theorem getPremintData_path_case_sensitive (api : PreminterAPI) (addr : String)
    (uid : Nat) (c : Char) (hc : c ∈ addr.data) (hu : c.isUpper = true) :
    getPremintDataPath api addr uid ≠
      getPremintDataPath api (jsToLowerCase addr) uid ∧
    premintNextUidPath api addr = premintNextUidPath api (jsToLowerCase addr) := by
  constructor
  · intro h
    have hd := congrArg String.data h
    simp only [getPremintDataPath, String.data_append, List.append_assoc] at hd
    have h5 := List.append_cancel_right
      (List.append_cancel_left (List.append_cancel_left
        (List.append_cancel_left (List.append_cancel_left hd))))
    exact jsToLowerCase_ne_of_upper addr c hc hu (String.ext h5).symm
  · unfold premintNextUidPath
    rw [jsToLowerCase_idempotent]

/-- C10 witness: the two path constructions at the concrete address
`0xAb`. -/
theorem getPremintData_path_case_sensitive_witness :
    getPremintDataPath sampleApi "0xAb" 3 ≠
      getPremintDataPath sampleApi (jsToLowerCase "0xAb") 3 ∧
    premintNextUidPath sampleApi "0xAb" =
      premintNextUidPath sampleApi (jsToLowerCase "0xAb") :=
  getPremintData_path_case_sensitive sampleApi "0xAb" 3 'A' (by decide) (by decide)

/-! ### Claim C6: uid allocation in `createPremint` -/

/-- C6: a nonzero explicit uid is used as-is with no registry read (the
signed premint config carries it); an absent or zero explicit uid triggers
a registry read at the path keyed by backend chain name and lower-cased
deployed address; if the fetched `next_uid` is absent or zero the
operation fails with `UID is missing but required`, and a nonzero fetched
value is the uid that gets signed. -/
theorem createPremint_uid_allocation (env : Env) (api : PreminterAPI)
    (p : CreatePremintParams) :
    (∀ u : Nat, p.executionSettings.bind ExecutionSettings.uid = some u → u ≠ 0 →
      (createPremint env api p).2.filter Effect.isRegistryGet = [] ∧
      Effect.walletSign
        { account := p.account
          verifyingContract := env.getContractAddress p.collection
          premintConfig := builtPremintConfig api p u
          chainId := api.chainId } ∈ (createPremint env api p).2) ∧
    ((p.executionSettings.bind ExecutionSettings.uid).getD 0 = 0 →
      Effect.registryGet (premintNextUidPath api (env.getContractAddress p.collection)) ∈
        (createPremint env api p).2 ∧
      ((jsonNextUid (env.fetch (premintNextUidPath api
          (env.getContractAddress p.collection))).body).getD 0 = 0 →
        (createPremint env api p).1 = Except.error "UID is missing but required") ∧
      (∀ m : Nat, jsonNextUid (env.fetch (premintNextUidPath api
          (env.getContractAddress p.collection))).body = some m → m ≠ 0 →
        Effect.walletSign
          { account := p.account
            verifyingContract := env.getContractAddress p.collection
            premintConfig := builtPremintConfig api p m
            chainId := api.chainId } ∈ (createPremint env api p).2)) := by
  constructor
  · intro u h hu
    rw [createPremint_of_explicit_uid env api p u h hu]
    obtain ⟨rest, hshape, hrest⟩ := createPremintAfterUid_trace_shape env api p
      (env.getContractAddress p.collection) u
      [Effect.chainRead "getContractAddress" api.getExecutorAddress]
    constructor
    · rw [hshape]
      simp [List.filter_append, Effect.isRegistryGet, hrest]
    · rw [hshape]
      simp
  · intro h0
    rw [createPremint_of_fetched_uid env api p h0]
    by_cases hf0 : (jsonNextUid (env.fetch (premintNextUidPath api
        (env.getContractAddress p.collection))).body).getD 0 = 0
    · refine ⟨by simp [hf0], fun _ => by simp [hf0], ?_⟩
      intro m hm hmne
      rw [hm] at hf0
      simp at hf0
      exact absurd hf0 hmne
    · have hred : (let addr := env.getContractAddress p.collection
          let fetched := jsonNextUid (env.fetch (premintNextUidPath api addr)).body
          let fx := [Effect.chainRead "getContractAddress" api.getExecutorAddress,
            Effect.registryGet (premintNextUidPath api addr)]
          if fetched.getD 0 = 0 then
            (Except.error "UID is missing but required", fx)
          else
            createPremintAfterUid env api p addr (fetched.getD 0) fx) =
          createPremintAfterUid env api p (env.getContractAddress p.collection)
            ((jsonNextUid (env.fetch (premintNextUidPath api
              (env.getContractAddress p.collection))).body).getD 0)
            [Effect.chainRead "getContractAddress" api.getExecutorAddress,
             Effect.registryGet (premintNextUidPath api
               (env.getContractAddress p.collection))] := if_neg hf0
      rw [hred]
      obtain ⟨rest, hshape, _⟩ := createPremintAfterUid_trace_shape env api p
        (env.getContractAddress p.collection)
        ((jsonNextUid (env.fetch (premintNextUidPath api
          (env.getContractAddress p.collection))).body).getD 0)
        [Effect.chainRead "getContractAddress" api.getExecutorAddress,
         Effect.registryGet (premintNextUidPath api (env.getContractAddress p.collection))]
      refine ⟨?_, fun hh => absurd hh hf0, ?_⟩
      · rw [hshape]
        simp
      · intro m hm hmne
        rw [hshape]
        simp only [hm, Option.getD_some]
        simp

/-- C6 witness: the explicit-uid case (uid 5: no registry read, uid signed
as-is) and the fetch case (no explicit uid: the keyed registry read
appears in the trace). -/
theorem createPremint_uid_allocation_witness :
    ((createPremint sampleEnvValidSig sampleApi sampleParamsUid5).2.filter
        Effect.isRegistryGet = [] ∧
      Effect.walletSign
        { account := "0xA"
          verifyingContract := "0xCoLLection"
          premintConfig := builtPremintConfig sampleApi sampleParamsUid5 5
          chainId := foundryChainId } ∈
        (createPremint sampleEnvValidSig sampleApi sampleParamsUid5).2) ∧
    Effect.registryGet (premintNextUidPath sampleApi "0xCoLLection") ∈
      (createPremint sampleEnvValidSig sampleApi sampleParamsNoUid).2 := by
  refine ⟨(createPremint_uid_allocation sampleEnvValidSig sampleApi
    sampleParamsUid5).1 5 rfl (by decide), ?_⟩
  exact ((createPremint_uid_allocation sampleEnvValidSig sampleApi
    sampleParamsNoUid).2 rfl).1

/-! ### Claim C7: invalid signature aborts before submission -/

/-- C7: when signature checking is enabled and the chain interface reports
the signature invalid, `createPremint` fails with `Invalid signature` and
its effect trace contains no registry write, so nothing is persisted
remotely on that failure. -/
theorem createPremint_invalid_signature_aborts (env : Env) (api : PreminterAPI)
    (p : CreatePremintParams) (u : Nat)
    (hcheck : p.checkSignature = true)
    (huid : p.executionSettings.bind ExecutionSettings.uid = some u ∨
      ((p.executionSettings.bind ExecutionSettings.uid).getD 0 = 0 ∧
       jsonNextUid (env.fetch (premintNextUidPath api
         (env.getContractAddress p.collection))).body = some u))
    (hu : u ≠ 0)
    (hsig : (env.isValidSignature p.collection (builtPremintConfig api p u)
      (builtSignature env api p (env.getContractAddress p.collection) u)).1 = false) :
    (createPremint env api p).1 = Except.error "Invalid signature" ∧
    (createPremint env api p).2.filter Effect.isRegistryPost = [] := by
  rcases huid with h | ⟨h0, hf⟩
  · rw [createPremint_of_explicit_uid env api p u h hu]
    have hinv := createPremintAfterUid_invalid_sig env api p
      (env.getContractAddress p.collection) u
      [Effect.chainRead "getContractAddress" api.getExecutorAddress] hcheck hsig
    refine ⟨hinv.1, ?_⟩
    rw [hinv.2]
    simp [Effect.isRegistryPost]
  · rw [createPremint_of_fetched_uid env api p h0]
    simp only [hf, Option.getD_some]
    rw [if_neg hu]
    have hinv := createPremintAfterUid_invalid_sig env api p
      (env.getContractAddress p.collection) u
      [Effect.chainRead "getContractAddress" api.getExecutorAddress,
       Effect.registryGet (premintNextUidPath api (env.getContractAddress p.collection))]
      hcheck hsig
    refine ⟨hinv.1, ?_⟩
    rw [hinv.2]
    simp [Effect.isRegistryPost]

/-- C7 witness: an environment whose chain interface reports the signature
invalid, with checking enabled and explicit uid 5. -/
theorem createPremint_invalid_signature_aborts_witness :
    (createPremint sampleEnvInvalidSig sampleApi sampleParamsUid5).1 =
      Except.error "Invalid signature" ∧
    (createPremint sampleEnvInvalidSig sampleApi sampleParamsUid5).2.filter
      Effect.isRegistryPost = [] :=
  createPremint_invalid_signature_aborts sampleEnvInvalidSig sampleApi
    sampleParamsUid5 5 rfl (Or.inl rfl) (by decide) rfl
